import Mathlib

/-!
Verification of the Windows identity-resolution and file-ownership engine
of node-posix-ext.  The native add-on sources (posix-win.cc, fs-win.cc,
process-win.cc, winwrap.cc, autores.h) and the JavaScript wrapper
(lib/posix-ext.js) are embedded shallowly: every native Windows call is an
oracle recorded in a world structure, and the C control flow is translated
to total Lean functions over those oracles.  Memory allocations and
text-encoding conversions, which the sources check but which carry no
information relevant to the verified properties, are assumed to succeed.
-/

namespace PosixExt

/-! Windows error codes used by the sources (winerror.h / lmerr.h values). -/

def ERROR_SUCCESS : Nat := 0

def ERROR_INVALID_FUNCTION : Nat := 1

def ERROR_ACCESS_DENIED : Nat := 5

def ERROR_INSUFFICIENT_BUFFER : Nat := 122

def ERROR_BAD_ARGUMENTS : Nat := 160

def ERROR_NONE_MAPPED : Nat := 1332

def NERR_DCNotFound : Nat := 2453

/-! Well-known relative identifiers and authorities (winnt.h values). -/

def DOMAIN_GROUP_RID_ADMINS : Nat := 512

def DOMAIN_ALIAS_RID_ADMINS : Nat := 544

def SECURITY_BUILTIN_DOMAIN_RID : Nat := 32

def SECURITY_NT_AUTHORITY : Nat := 5

/-- A security identifier: the identifier authority and the chain of
sub-authorities.  The native value is opaque to the engine except for
serialization and the primary-group reconstruction. -/
structure SidRec where
  authority : Nat
  subAuths : List Nat
deriving DecidableEq, Repr

/-- Serialization performed by ConvertSidToStringSid:
"S-1-(authority)-(sub1)-...". -/
def convertSidToStringSid (s : SidRec) : String :=
  "S-1-" ++ toString s.authority ++ String.join (s.subAuths.map (fun a => "-" ++ toString a))

/-- The SID_NAME_USE type tag reported by LookupAccountSid /
LookupAccountName. -/
inductive SidNameUse where
  | SidTypeUser
  | SidTypeGroup
  | SidTypeDomain
  | SidTypeAlias
  | SidTypeWellKnownGroup
  | SidTypeDeletedAccount
  | SidTypeInvalid
  | SidTypeUnknown
  | SidTypeComputer
  | SidTypeLabel
deriving DecidableEq, Repr

/-- ASCII lower-casing of a character code. -/
def lowerCode (n : Nat) : Nat :=
  if 65 ≤ n ∧ n ≤ 90 then n + 32 else n

/-- Case-insensitive string equality, the model of stricmp and of the
wide variant used by the sources (ASCII folding). -/
def icmpEq (a b : String) : Bool :=
  a.toList.map (fun c => lowerCode c.toNat) == b.toList.map (fun c => lowerCode c.toNat)

/-- Account data returned by a successful LookupAccountSidW fetch. -/
structure LookupSidInfo where
  account : String
  domain : String
  sidtype : SidNameUse
deriving DecidableEq, Repr

/-- The USER_INFO_4 fields consumed by resolve_user. -/
structure UserInfo4 where
  primaryGroupRid : Nat
  password : Option String
  fullName : String
  scriptPath : String
  homeDir : String
deriving DecidableEq, Repr

/-- Oracle for the native Windows calls made by posix-win.cc.  Each call
either succeeds with its data or fails with a GetLastError (or NetApi)
code.  The two-phase size-probe pattern of the lookup APIs is modelled by
a separate probe outcome whose expected result is the
insufficient-buffer error. -/
structure SysWorld where
  lookupAccountNameProbe : String → Except Nat Unit
  lookupAccountNameFetch : String → Except Nat SidRec
  lookupAccountSidProbe : SidRec → Except Nat Unit
  lookupAccountSidFetch : SidRec → Except Nat LookupSidInfo
  convertStringSidToSid : String → Except Nat SidRec
  computerName : String
  netGetDCName : String → Except Nat String
  netGroupGetUsers : String → String → Except Nat (List String)
  netLocalGroupGetMembers : String → Except Nat (List String)
  netUserGetInfo : Option String → String → Except Nat UserInfo4

/-- Model of resolve_name (posix-win.cc): resolve "account" or
"domain\account" to its SID through the probe/fetch pair of
LookupAccountNameW; an unexpectedly successful probe is reported as
ERROR_INVALID_FUNCTION, a probe failure other than insufficient-buffer
is returned as is. -/
def resolve_name (w : SysWorld) (name : String) : Except Nat SidRec :=
  match w.lookupAccountNameProbe name with
  | .ok _ => .error ERROR_INVALID_FUNCTION
  | .error e =>
    if e ≠ ERROR_INSUFFICIENT_BUFFER then .error e
    else w.lookupAccountNameFetch name

/-- The group_t record of posix-win.cc; a field is none while its
buffer wrapper has not been populated. -/
structure Group_t where
  gid : Option String
  name : Option String
  passwd : Option String
  members : Option (List String)
deriving DecidableEq, Repr

/-- The user_t record of posix-win.cc. -/
structure User_t where
  uid : Option String
  gid : Option String
  name : Option String
  passwd : Option String
  gecos : Option String
  shell : Option String
  dir : Option String
deriving DecidableEq, Repr

/-- The alias-normalization step of resolve_group: a SID that resolved to
"(computer)\None" denotes the local Users group of a domain-joined
machine and is rewritten to "(computer)\Users"; both comparisons are
case-insensitive in the source.  Returns the (domain, account) pair
after the step. -/
def normalizeNoneAlias (account domain computer : String) : String × String :=
  if icmpEq account "None" && icmpEq domain computer then (computer, "Users")
  else (domain, account)

/-- Member-name qualification in the domain branch of resolve_group:
a member returned without a "domain\" qualifier gets the group's domain
prepended, so that member names are uniformly qualified. -/
def qualifyMember (domain member : String) : String :=
  if domain.length = 0 || member.toList.contains '\\' then member
  else domain ++ "\\" ++ member

/-- Final display-name composition of the resolver: "(domain)\(account)",
dropping the separator entirely when the domain part is empty. -/
def composeName (domain account : String) : String :=
  if domain.length > 0 then domain ++ "\\" ++ account else account

/-- Model of resolve_group (posix-win.cc, NAN revision): completes the
group record from its SID.  Mirrors the source's control flow: serialize
the SID, probe and fetch LookupAccountSidW, validate the principal type,
read the computer name, apply the None-alias normalization, optionally
discover the domain controller and enumerate members (an access-denied
enumeration ends the resolution early, successfully, leaving the name,
passwd and members buffers unpopulated), then compose the display name
and the "x" password placeholder. -/
def resolve_group (w : SysWorld) (gsid : SidRec) (populateGroupMembers : Bool) :
    Except Nat Group_t :=
  let gid := convertSidToStringSid gsid
  match w.lookupAccountSidProbe gsid with
  | .ok _ => .error ERROR_INVALID_FUNCTION
  | .error e =>
  if e ≠ ERROR_INSUFFICIENT_BUFFER then .error e else
  match w.lookupAccountSidFetch gsid with
  | .error e2 => .error e2
  | .ok info =>
  if info.sidtype ≠ SidNameUse.SidTypeGroup ∧ info.sidtype ≠ SidNameUse.SidTypeAlias ∧
     info.sidtype ≠ SidNameUse.SidTypeLabel ∧ info.sidtype ≠ SidNameUse.SidTypeWellKnownGroup then
    .error ERROR_BAD_ARGUMENTS
  else
  let computer := w.computerName
  let na := normalizeNoneAlias info.account info.domain computer
  let domain := na.1
  let account := na.2
  if populateGroupMembers ∧
     (info.sidtype = SidNameUse.SidTypeGroup ∨ info.sidtype = SidNameUse.SidTypeAlias) then
    let dcstep : Except Nat (Option String) :=
      if domain.length > 0 ∧ ¬ icmpEq domain "BUILTIN" ∧ ¬ icmpEq domain computer then
        match w.netGetDCName domain with
        | .ok dc => .ok (some dc)
        | .error e3 => if e3 = NERR_DCNotFound then .ok none else .error e3
      else .ok none
    match dcstep with
    | .error e3 => .error e3
    | .ok (some srv) =>
      match w.netGroupGetUsers srv account with
      | .error e4 =>
        if e4 = ERROR_ACCESS_DENIED then
          .ok { gid := some gid, name := none, passwd := none, members := none }
        else .error e4
      | .ok users =>
        let members := if users.length > 0 then some (users.map (qualifyMember domain)) else none
        .ok { gid := some gid, name := some (composeName domain account),
              passwd := some "x", members := members }
    | .ok none =>
      match w.netLocalGroupGetMembers account with
      | .error e4 =>
        if e4 = ERROR_ACCESS_DENIED then
          .ok { gid := some gid, name := none, passwd := none, members := none }
        else .error e4
      | .ok ms =>
        let members := if ms.length > 0 then some ms else none
        .ok { gid := some gid, name := some (composeName domain account),
              passwd := some "x", members := members }
  else
    .ok { gid := some gid, name := some (composeName domain account),
          passwd := some "x", members := none }

/-- The primary-group SID reconstruction inside resolve_user: an
alias-range relative id (at or above DOMAIN_ALIAS_RID_ADMINS) becomes a
two-sub-authority SID under the built-in domain; otherwise the user's own
SID is copied and its final sub-authority replaced by the relative id. -/
def reconstructPrimaryGroupSid (usid : SidRec) (rid : Nat) : SidRec :=
  if rid ≥ DOMAIN_ALIAS_RID_ADMINS then
    { authority := SECURITY_NT_AUTHORITY,
      subAuths := [SECURITY_BUILTIN_DOMAIN_RID, rid] }
  else
    { authority := usid.authority,
      subAuths := usid.subAuths.dropLast ++ [rid] }

/-- Model of resolve_user (posix-win.cc, NAN revision): completes the
user record from its SID.  Serialize the SID, probe and fetch
LookupAccountSidW, require the user type, discover the domain controller
when the domain is not the local machine (controller-not-found falls
back to the local scope), fetch USER_INFO_4 (access denied ends the
resolution early, successfully, with only the uid populated), then
reconstruct the primary-group SID and populate the remaining fields. -/
def resolve_user (w : SysWorld) (usid : SidRec) : Except Nat User_t :=
  let uid := convertSidToStringSid usid
  match w.lookupAccountSidProbe usid with
  | .ok _ => .error ERROR_INVALID_FUNCTION
  | .error e =>
  if e ≠ ERROR_INSUFFICIENT_BUFFER then .error e else
  match w.lookupAccountSidFetch usid with
  | .error e2 => .error e2
  | .ok info =>
  if info.sidtype ≠ SidNameUse.SidTypeUser then .error ERROR_BAD_ARGUMENTS
  else
  let computer := w.computerName
  let dcstep : Except Nat (Option String) :=
    if ¬ icmpEq info.domain computer then
      match w.netGetDCName info.domain with
      | .ok dc => .ok (some dc)
      | .error e3 => if e3 = NERR_DCNotFound then .ok none else .error e3
    else .ok none
  match dcstep with
  | .error e3 => .error e3
  | .ok wserver =>
  match w.netUserGetInfo wserver info.account with
  | .error e4 =>
    if e4 = ERROR_ACCESS_DENIED then
      .ok { uid := some uid, gid := none, name := none, passwd := none,
            gecos := none, shell := none, dir := none }
    else .error e4
  | .ok uinfo =>
    let gsid := reconstructPrimaryGroupSid usid uinfo.primaryGroupRid
    .ok { uid := some uid,
          gid := some (convertSidToStringSid gsid),
          name := some (composeName info.domain info.account),
          passwd := some (match uinfo.password with | some p => p | none => "x"),
          gecos := some uinfo.fullName,
          shell := some uinfo.scriptPath,
          dir := some uinfo.homeDir }

/-- JavaScript group record produced by convert_group.  The passwd field
is written only when the native buffer was populated; members falls back
to an empty array when the membership array was never resized.  The name
and gid properties are written unconditionally in the source; an
unpopulated buffer there is modelled by none. -/
structure JsGroup where
  name : Option String
  passwd : Option String
  gid : Option String
  members : List String
deriving DecidableEq, Repr

/-- Model of convert_group (posix-win.cc). -/
def convert_group (g : Group_t) : JsGroup :=
  { name := g.name, passwd := g.passwd, gid := g.gid,
    members := match g.members with | some ms => ms | none => [] }

/-- JavaScript user record produced by convert_user; optional fields are
written only when the corresponding native buffer was populated. -/
structure JsUser where
  name : Option String
  passwd : Option String
  uid : Option String
  gid : Option String
  gecos : Option String
  shell : Option String
  dir : Option String
deriving DecidableEq, Repr

/-- Model of convert_user (posix-win.cc). -/
def convert_user (u : User_t) : JsUser :=
  { name := u.name, passwd := u.passwd, uid := u.uid, gid := u.gid,
    gecos := u.gecos, shell := u.shell, dir := u.dir }

/-! Dual-mode dispatch (NAN revision of posix-win.cc).  Each exposed
method validates its arguments, then either runs the implementation
inline (no callback: the none-mapped error returns undefined, other
errors throw, success returns the converted record) or queues a worker
whose completion handler routes the same outcome to the callback. -/

/-- Outcome of a synchronous invocation of an exposed method. -/
inductive SyncOutcome where
  | threw (code : Nat)
  | retUndefined
  | retGroup (g : JsGroup)
  | retUser (u : JsUser)
deriving DecidableEq, Repr

/-- One invocation of the user-supplied completion callback of an
asynchronous method. -/
inductive CallbackCall where
  | failure (code : Nat)
  | successUndefined
  | successGroup (g : JsGroup)
  | successUser (u : JsUser)
deriving DecidableEq, Repr

/-- Model of getgrnam_impl: resolve the name to a SID, then complete the
group record. -/
def getgrnam_impl (w : SysWorld) (name : String) (populate : Bool) : Except Nat Group_t :=
  match resolve_name w name with
  | .error e => .error e
  | .ok gsid => resolve_group w gsid populate

/-- Model of getgrgid_impl (NAN revision): parse the SID string, then
complete the group record. -/
def getgrgid_impl (w : SysWorld) (gid : String) (populate : Bool) : Except Nat Group_t :=
  match w.convertStringSidToSid gid with
  | .error e => .error e
  | .ok gsid => resolve_group w gsid populate

/-- Model of getpwnam_impl: resolve the name to a SID, then complete the
user record. -/
def getpwnam_impl (w : SysWorld) (name : String) : Except Nat User_t :=
  match resolve_name w name with
  | .error e => .error e
  | .ok usid => resolve_user w usid

/-- Model of getpwuid_impl: parse the SID string, then complete the user
record. -/
def getpwuid_impl (w : SysWorld) (uid : String) : Except Nat User_t :=
  match w.convertStringSidToSid uid with
  | .error e => .error e
  | .ok usid => resolve_user w usid

/-- Completion of a synchronous group-returning call. -/
def groupSyncComplete (r : Except Nat Group_t) : SyncOutcome :=
  match r with
  | .error e => if e = ERROR_NONE_MAPPED then .retUndefined else .threw e
  | .ok g => .retGroup (convert_group g)

/-- Completion of an asynchronous group-returning call (the
HandleOKCallback of the group workers). -/
def groupAsyncComplete (r : Except Nat Group_t) : CallbackCall :=
  match r with
  | .error e => if e = ERROR_NONE_MAPPED then .successUndefined else .failure e
  | .ok g => .successGroup (convert_group g)

/-- Completion of a synchronous user-returning call. -/
def userSyncComplete (r : Except Nat User_t) : SyncOutcome :=
  match r with
  | .error e => if e = ERROR_NONE_MAPPED then .retUndefined else .threw e
  | .ok u => .retUser (convert_user u)

/-- Completion of an asynchronous user-returning call (the
HandleOKCallback of the user workers). -/
def userAsyncComplete (r : Except Nat User_t) : CallbackCall :=
  match r with
  | .error e => if e = ERROR_NONE_MAPPED then .successUndefined else .failure e
  | .ok u => .successUser (convert_user u)

/-- Synchronous getgrnam path. -/
def getgrnam_sync (w : SysWorld) (name : String) (populate : Bool) : SyncOutcome :=
  groupSyncComplete (getgrnam_impl w name populate)

/-- Asynchronous getgrnam completion delivered to the callback. -/
def getgrnam_async (w : SysWorld) (name : String) (populate : Bool) : CallbackCall :=
  groupAsyncComplete (getgrnam_impl w name populate)

/-- Synchronous getgrgid path (NAN revision). -/
def getgrgid_sync (w : SysWorld) (gid : String) (populate : Bool) : SyncOutcome :=
  groupSyncComplete (getgrgid_impl w gid populate)

/-- Asynchronous getgrgid completion (NAN revision). -/
def getgrgid_async (w : SysWorld) (gid : String) (populate : Bool) : CallbackCall :=
  groupAsyncComplete (getgrgid_impl w gid populate)

/-- Synchronous getpwnam path. -/
def getpwnam_sync (w : SysWorld) (name : String) : SyncOutcome :=
  userSyncComplete (getpwnam_impl w name)

/-- Asynchronous getpwnam completion delivered to the callback. -/
def getpwnam_async (w : SysWorld) (name : String) : CallbackCall :=
  userAsyncComplete (getpwnam_impl w name)

/-- Synchronous getpwuid path. -/
def getpwuid_sync (w : SysWorld) (uid : String) : SyncOutcome :=
  userSyncComplete (getpwuid_impl w uid)

/-- Asynchronous getpwuid completion delivered to the callback. -/
def getpwuid_async (w : SysWorld) (uid : String) : CallbackCall :=
  userAsyncComplete (getpwuid_impl w uid)

/-! The legacy dispatcher (src/posix-win.cc, v8-only revision): one shared
after_async completion handler selects the result converter from an
operation tag stored when the worker was queued. -/

/-- Operation tags of the legacy dispatcher. -/
inductive Operation where
  | OPERATION_GETGRGID
  | OPERATION_GETGRNAM
  | OPERATION_GETPWNAM
  | OPERATION_GETPWUID
deriving DecidableEq, Repr

/-- Model of after_async (legacy dispatcher): the none-mapped error
becomes a (null, undefined) success, other errors an error object, and a
successful outcome is shaped by the converter selected by the stored
operation tag. -/
def after_async (error : Nat) (op : Operation) (user : User_t) (group : Group_t) :
    CallbackCall :=
  if error = ERROR_NONE_MAPPED then .successUndefined
  else if error ≠ ERROR_SUCCESS then .failure error
  else match op with
  | .OPERATION_GETGRGID => .successGroup (convert_group group)
  | .OPERATION_GETGRNAM => .successGroup (convert_group group)
  | .OPERATION_GETPWNAM => .successUser (convert_user user)
  | .OPERATION_GETPWUID => .successUser (convert_user user)

/-- The operation tag that the legacy getgrgid entry point stores into
the async data when queueing the worker. -/
def getgrgid_queued_operation : Operation := Operation.OPERATION_GETPWUID

/-- The async data prepared by the legacy getgrgid entry point. -/
structure OldAsyncData where
  operation : Operation
  userUid : Option String
  groupGid : Option String
deriving DecidableEq, Repr

/-- The async-setup step of the legacy getgrgid entry point: it stores
the gid argument into the group record but then validates the user
record's uid buffer, which was never assigned, and throws when that
buffer is invalid. -/
def getgrgid_async_setup (gid : String) : Except Unit OldAsyncData :=
  let d : OldAsyncData :=
    { operation := getgrgid_queued_operation, userUid := none, groupGid := some gid }
  if d.userUid.isSome then .ok d else .error ()

/-! Model of the fchown / chown entry points of fs-win.cc: JavaScript
argument validation and sync/async dispatch, recording which argument the
entry wraps as the completion callback. -/

/-- JavaScript argument values relevant to the entry points; function
values carry an id so distinct functions can be told apart. -/
inductive JsVal where
  | str (s : String)
  | int (n : Int)
  | undef
  | func (id : Nat)
deriving DecidableEq, Repr

def JsVal.isStr : JsVal → Bool
  | .str _ => true
  | _ => false

def JsVal.isFunc : JsVal → Bool
  | .func _ => true
  | _ => false

def JsVal.isUndef : JsVal → Bool
  | .undef => true
  | _ => false

def JsVal.isInt32 : JsVal → Bool
  | .int _ => true
  | _ => false

/-- Reading an argument beyond the supplied count yields undefined, as
in the hosting JavaScript engine. -/
def argAt (args : List JsVal) (i : Nat) : JsVal :=
  args.getD i JsVal.undef

/-- Outcome of an entry point before the native work runs: a type error,
the synchronous path, or a queued worker recording the value that the
entry wrapped as the completion callback. -/
inductive EntryOutcome where
  | typeError (msg : String)
  | syncRun
  | queued (callback : JsVal)
deriving DecidableEq, Repr

/-- Model of the fchown entry point (fs-win.cc): argument validation and
dispatch; the queued case records the argument wrapped as the callback,
which the source takes from index 1. -/
def fchown_entry (args : List JsVal) : EntryOutcome :=
  let argc := args.length
  if argc < 1 then .typeError "fd required"
  else if argc > 4 then .typeError "too many arguments"
  else if ¬ (argAt args 0).isInt32 then .typeError "fd must be an int"
  else if argc < 2 then .typeError "uid required"
  else if ¬ (argAt args 1).isStr ∧ ¬ (argAt args 1).isUndef then
    .typeError "uid must be a string or undefined"
  else if argc < 3 then .typeError "gid required"
  else if ¬ (argAt args 2).isStr ∧ ¬ (argAt args 2).isUndef then
    .typeError "gid must be a string or undefined"
  else if argc > 3 ∧ ¬ (argAt args 3).isFunc then .typeError "callback must be a function"
  else if (argAt args 1).isUndef ∧ (argAt args 2).isUndef then
    .typeError "either uid or gid must be defined"
  else if ¬ (argAt args 3).isFunc then .syncRun
  else .queued (argAt args 1)

/-- Model of the chown entry point (fs-win.cc): same validation with a
path argument; the queued case again records the argument taken from
index 1 as the callback. -/
def chown_entry (args : List JsVal) : EntryOutcome :=
  let argc := args.length
  if argc < 1 then .typeError "path required"
  else if argc > 4 then .typeError "too many arguments"
  else if ¬ (argAt args 0).isStr then .typeError "path must be a string"
  else if argc < 2 then .typeError "uid required"
  else if ¬ (argAt args 1).isStr ∧ ¬ (argAt args 1).isUndef then
    .typeError "uid must be a string or undefined"
  else if argc < 3 then .typeError "gid required"
  else if ¬ (argAt args 2).isStr ∧ ¬ (argAt args 2).isUndef then
    .typeError "gid must be a string or undefined"
  else if argc > 3 ∧ ¬ (argAt args 3).isFunc then .typeError "callback must be a function"
  else if (argAt args 1).isUndef ∧ (argAt args 2).isUndef then
    .typeError "either uid or gid must be defined"
  else if ¬ (argAt args 3).isFunc then .syncRun
  else .queued (argAt args 1)

/-! Ownership writes (fs-win.cc): chown_impl / fchown_impl parse the
identifier strings, enable the take-ownership privileges through the
TakingOwhership helper, apply the requested security information and
disable the privileges again; the helper's destructor also disables them
on every abnormal exit path. -/

/-- Failure sites of the native calls made by the ownership writes; the
source reports each as a GetLastError code, abstracted here by the site
that failed. -/
inductive FsErr where
  | parseUid
  | parseGid
  | openToken
  | adjustEnable
  | setInfo
  | adjustDisable
  | closeToken
deriving DecidableEq, Repr

/-- The enabled/disabled state of the four privileges that
TakingOwhership adjusts: SeTakeOwnership, SeSecurity, SeBackup and
SeRestore. -/
structure PrivMask where
  takeOwnership : Bool
  security : Bool
  backup : Bool
  restore : Bool
deriving DecidableEq, Repr

/-- All four privileges. -/
def allPrivileges : PrivMask :=
  { takeOwnership := true, security := true, backup := true, restore := true }

/-- No privilege. -/
def noPrivileges : PrivMask :=
  { takeOwnership := false, security := false, backup := false, restore := false }

/-- The effect of one AdjustTokenPrivileges call listing all four
privileges with the given attribute: every privilege held by the token
is set to the requested value, the privileges the token does not hold
stay untouched (the API reports those via ERROR_NOT_ALL_ASSIGNED after
having adjusted the held ones). -/
def adjustHeld (held : PrivMask) (enable : Bool) (cur : PrivMask) : PrivMask :=
  { takeOwnership := if held.takeOwnership then enable else cur.takeOwnership,
    security := if held.security then enable else cur.security,
    backup := if held.backup then enable else cur.backup,
    restore := if held.restore then enable else cur.restore }

/-- Oracle for the native calls of fs-win.cc.  The heldPrivs field says
which of the four adjusted privileges the process token holds;
adjustCallOk covers the privilege-value lookups and the
AdjustTokenPrivileges call itself (a hard failure there adjusts
nothing). -/
structure FsWorld where
  parseSid : String → Bool
  openToken : Bool
  adjustCallOk : Bool
  heldPrivs : PrivMask
  setInfo : Bool
  closeToken : Bool

/-- Process and file state threaded through an ownership write: the
per-privilege enabled state of the process token, the file's owner and
group identifiers, and a count of the security-descriptor updates
applied. -/
structure SecState where
  privs : PrivMask
  owner : String
  group : String
  setCalls : Nat
deriving DecidableEq, Repr

/-- Model of TakingOwhership::SetPrivileges: one AdjustTokenPrivileges
call over the fixed four-privilege list.  A hard failure (privilege
lookup or the call itself) adjusts nothing and returns FALSE; otherwise
the held privileges are adjusted, and when the token lacks some listed
privilege the call reports ERROR_NOT_ALL_ASSIGNED, which the source
treats as failure, after the held subset has already been adjusted. -/
def setPrivilegesStep (w : FsWorld) (enable : Bool) (s : SecState) : Bool × SecState :=
  if ¬ w.adjustCallOk then (false, s)
  else
    let s' := { s with privs := adjustHeld w.heldPrivs enable s.privs }
    if w.heldPrivs = allPrivileges then (true, s') else (false, s')

/-- Model of TakingOwhership::Disable: a no-op unless the helper's
enabled flag is set; otherwise run SetPrivileges(FALSE) and close the
token handle, clearing the flag only when both steps succeed.  Returns
the call outcome, the new state and the new flag. -/
def disableStep (w : FsWorld) (s : SecState) (enabled : Bool) :
    Except FsErr Unit × SecState × Bool :=
  if enabled then
    match setPrivilegesStep w false s with
    | (false, s') => (.error .adjustDisable, s', true)
    | (true, s') =>
      if ¬ w.closeToken then (.error .closeToken, s', true)
      else (.ok (), s', false)
  else (.ok (), s, false)

/-- The security-descriptor update step shared by chown_impl and
fchown_impl: one native call scoped to the supplied identifiers; an
empty identifier string leaves that field untouched, and two empty
strings skip the update entirely. -/
def setInfoStep (w : FsWorld) (uid gid : String) (s : SecState) :
    Except FsErr Unit × SecState :=
  if uid ≠ "" ∧ gid ≠ "" then
    if w.setInfo then
      (.ok (), { s with owner := uid, group := gid, setCalls := s.setCalls + 1 })
    else (.error .setInfo, s)
  else if uid ≠ "" then
    if w.setInfo then (.ok (), { s with owner := uid, setCalls := s.setCalls + 1 })
    else (.error .setInfo, s)
  else if gid ≠ "" then
    if w.setInfo then (.ok (), { s with group := gid, setCalls := s.setCalls + 1 })
    else (.error .setInfo, s)
  else (.ok (), s)

/-- The body of chown_impl (fs-win.cc): parse the non-empty identifier
strings, enable the privileges through TakingOwhership::Enable, update
the descriptor, then explicitly disable the privileges.  Returns the
outcome, the state, and the TakingOwhership enabled flag still set at
exit.  An enable failure — including the not-all-assigned outcome that
has already enabled the held subset — leaves the flag false, exactly as
in the source, so no later step disables that subset. -/
def chown_impl_body (w : FsWorld) (uid gid : String) (s0 : SecState) :
    Except FsErr Unit × SecState × Bool :=
  if uid ≠ "" ∧ ¬ w.parseSid uid then (.error .parseUid, s0, false)
  else if gid ≠ "" ∧ ¬ w.parseSid gid then (.error .parseGid, s0, false)
  else if ¬ w.openToken then (.error .openToken, s0, false)
  else
    match setPrivilegesStep w true s0 with
    | (false, s1) => (.error .adjustEnable, s1, false)
    | (true, s1) =>
      match setInfoStep w uid gid s1 with
      | (.error e, s2) => (.error e, s2, true)
      | (.ok _, s2) => disableStep w s2 true

/-- Model of chown_impl including the TakingOwhership destructor, which
runs Disable once more on every exit path (its own outcome is
discarded). -/
def chown_impl (w : FsWorld) (uid gid : String) (s0 : SecState) :
    Except FsErr Unit × SecState :=
  match chown_impl_body w uid gid s0 with
  | (r, s, flag) =>
    match disableStep w s flag with
    | (_, s', _) => (r, s')

/-- The body of fchown_impl (fs-win.cc): identical control flow to
chown_impl over an open file descriptor instead of a path, with the
same enable-failure behavior (the flag stays false even when the
not-all-assigned outcome has already enabled the held subset). -/
def fchown_impl_body (w : FsWorld) (fd : Int) (uid gid : String) (s0 : SecState) :
    Except FsErr Unit × SecState × Bool :=
  if uid ≠ "" ∧ ¬ w.parseSid uid then (.error .parseUid, s0, false)
  else if gid ≠ "" ∧ ¬ w.parseSid gid then (.error .parseGid, s0, false)
  else if ¬ w.openToken then (.error .openToken, s0, false)
  else
    match setPrivilegesStep w true s0 with
    | (false, s1) => (.error .adjustEnable, s1, false)
    | (true, s1) =>
      match setInfoStep w uid gid s1 with
      | (.error e, s2) => (.error e, s2, true)
      | (.ok _, s2) => disableStep w s2 true

/-- Model of fchown_impl including the TakingOwhership destructor. -/
def fchown_impl (w : FsWorld) (fd : Int) (uid gid : String) (s0 : SecState) :
    Except FsErr Unit × SecState :=
  match fchown_impl_body w fd uid gid s0 with
  | (r, s, flag) =>
    match disableStep w s flag with
    | (_, s', _) => (r, s')

/-! The JavaScript wrapper (lib/posix-ext.js): symbolic-link resolution
for path-based ownership reads.  The external path module is modelled
minimally (paths without trailing separators or dot segments). -/

/-- Path separators accepted on both platforms. -/
def isPathSep (c : Char) : Bool := c == '/' || c == '\\'

/-- ASCII drive-letter test, matching the case-insensitive character
class of the source's regular expression. -/
def isDriveLetter (c : Char) : Bool :=
  (decide (97 ≤ c.toNat) && decide (c.toNat ≤ 122)) ||
  (decide (65 ≤ c.toNat) && decide (c.toNat ≤ 90))

/-- The absolute-path test of resolveLink: the target starts with a path
separator, optionally preceded by a drive letter and a colon. -/
def isAbsolutePath (p : String) : Bool :=
  match p.toList with
  | [] => false
  | c :: rest =>
    isPathSep c ||
    (isDriveLetter c &&
      (match rest with
       | ':' :: d :: _ => isPathSep d
       | _ => false))

/-- Minimal model of the external path.dirname: everything before the
last separator; "." when there is none, "/" when the separator is
leading. -/
def pathDirname (p : String) : String :=
  match p.toList.reverse.dropWhile (fun c => ¬ isPathSep c) with
  | [] => "."
  | _ :: rest => if rest.isEmpty then "/" else String.mk rest.reverse

/-- Minimal model of the external path.join: concatenation with one
separator. -/
def pathJoin (a b : String) : String := a ++ "/" ++ b

/-- Model of resolveLink (lib/posix-ext.js): an absolute link target is
used unchanged, a relative one is joined to the directory containing the
link. -/
def resolveLink (fpath lpath : String) : String :=
  if isAbsolutePath lpath then lpath
  else pathJoin (pathDirname fpath) lpath

/-- What a path names in the lstat view (never following links). -/
inductive FsNode where
  | plain
  | symlink (target : String)
deriving DecidableEq, Repr

/-- The stats record after the ownership merge of the wrapper. -/
structure Stats where
  isSymbolicLink : Bool
  uid : String
  gid : String
deriving DecidableEq, Repr

/-- Failures of the wrapper-level filesystem calls. -/
inductive JsFsErr where
  | lstatFailed
  | readlinkFailed
  | getownFailed
deriving DecidableEq, Repr

/-- Oracle for the built-in fs module and the native getown binding:
node is the lstat view of a path, readlink the stored link target, and
own the ownership identifiers that the native security query reports for
a path, also without following links. -/
structure JsFs where
  node : String → Option FsNode
  readlink : String → Option String
  own : String → Option (String × String)

/-- Model of completeStatsSync: merge the native ownership record into
the built-in stats. -/
def completeStatsSync (fs : JsFs) (p : String) (isLink : Bool) : Except JsFsErr Stats :=
  match fs.own p with
  | none => .error .getownFailed
  | some (u, g) => .ok { isSymbolicLink := isLink, uid := u, gid := g }

/-- Model of the extended lstatSync: built-in lstat plus the ownership
merge; never follows links. -/
def lstatSyncExt (fs : JsFs) (p : String) : Except JsFsErr Stats :=
  match fs.node p with
  | none => .error .lstatFailed
  | some n =>
    completeStatsSync fs p (match n with | .symlink _ => true | .plain => false)

/-- Model of the extended statSync: built-in lstat; a symbolic link is
resolved with resolveLink and the read continues via the extended
lstatSync on the resolved path, a non-link proceeds directly to the
ownership merge. -/
def statSyncExt (fs : JsFs) (p : String) : Except JsFsErr Stats :=
  match fs.node p with
  | none => .error .lstatFailed
  | some (.symlink _) =>
    match fs.readlink p with
    | none => .error .readlinkFailed
    | some lpath => lstatSyncExt fs (resolveLink p lpath)
  | some .plain => completeStatsSync fs p false

/-! Shared numeric facts about the error codes. -/

theorem none_mapped_ne_insufficient : ERROR_NONE_MAPPED ≠ ERROR_INSUFFICIENT_BUFFER := by decide

/-- C1: the spec promises that synchronous and asynchronous invocation
shapes of every operation produce structurally identical results, that
the asynchronous getgrgid shapes its result with the group converter,
and that asynchronous fchown and chown deliver their outcome to the
caller-supplied callback.  The code diverges: the legacy getgrgid entry
queues its worker under the getpwuid operation tag, so a successful
outcome would be shaped by the user converter (and its setup in fact
validates the never-assigned user uid buffer and therefore always
throws), and the fchown and chown entries wrap argument index 1 (the uid
string) as the completion callback instead of the supplied function at
index 3.  This theorem evaluates those code paths at concrete inputs. -/
theorem c1_sync_async_divergence :
    getgrgid_async_setup "S-1-5-32-545" = Except.error ()
    ∧ (∀ u g, after_async ERROR_SUCCESS getgrgid_queued_operation u g
        = CallbackCall.successUser (convert_user u))
    ∧ (∀ u g, after_async ERROR_SUCCESS Operation.OPERATION_GETGRGID u g
        = CallbackCall.successGroup (convert_group g))
    ∧ fchown_entry [JsVal.int 3, JsVal.str "S-1-5-32-544", JsVal.str "", JsVal.func 7]
        = EntryOutcome.queued (JsVal.str "S-1-5-32-544")
    ∧ chown_entry [JsVal.str "f.txt", JsVal.str "S-1-5-32-544", JsVal.str "", JsVal.func 7]
        = EntryOutcome.queued (JsVal.str "S-1-5-32-544")
    ∧ JsVal.str "S-1-5-32-544" ≠ JsVal.func 7 := by
  refine ⟨rfl, fun u g => rfl, fun u g => rfl, by decide, by decide, by decide⟩

/-- C7: a SID lookup validates the reported principal type against the
expected category: user resolution accepts only the user type and group
resolution only group, alias, label or well-known-group; a mismatch
aborts the resolution with the bad-arguments error, which is distinct
from the none-mapped not-found outcome. -/
theorem c7_principal_type_validation (w : SysWorld) (sid : SidRec)
    (info : LookupSidInfo) (populate : Bool)
    (hprobe : w.lookupAccountSidProbe sid = Except.error ERROR_INSUFFICIENT_BUFFER)
    (hfetch : w.lookupAccountSidFetch sid = Except.ok info) :
    (info.sidtype ≠ SidNameUse.SidTypeGroup → info.sidtype ≠ SidNameUse.SidTypeAlias →
     info.sidtype ≠ SidNameUse.SidTypeLabel → info.sidtype ≠ SidNameUse.SidTypeWellKnownGroup →
     resolve_group w sid populate = Except.error ERROR_BAD_ARGUMENTS)
    ∧ (info.sidtype ≠ SidNameUse.SidTypeUser →
       resolve_user w sid = Except.error ERROR_BAD_ARGUMENTS)
    ∧ ERROR_BAD_ARGUMENTS ≠ ERROR_NONE_MAPPED := by
  refine ⟨?_, ?_, by decide⟩
  · intro h1 h2 h3 h4
    simp [resolve_group, hprobe, hfetch, h1, h2, h3, h4]
  · intro h
    simp [resolve_user, hprobe, hfetch, h]

/-- Witness for C7 at a concrete world whose SID resolves to a domain
principal, which is neither a user nor an accepted group category. -/
def wDomainTag : SysWorld :=
  { lookupAccountNameProbe := fun _ => Except.error ERROR_NONE_MAPPED,
    lookupAccountNameFetch := fun _ => Except.error ERROR_NONE_MAPPED,
    lookupAccountSidProbe := fun _ => Except.error ERROR_INSUFFICIENT_BUFFER,
    lookupAccountSidFetch := fun _ =>
      Except.ok { account := "DOM", domain := "", sidtype := SidNameUse.SidTypeDomain },
    convertStringSidToSid := fun _ => Except.ok { authority := 5, subAuths := [21] },
    computerName := "HOST",
    netGetDCName := fun _ => Except.error NERR_DCNotFound,
    netGroupGetUsers := fun _ _ => Except.error ERROR_ACCESS_DENIED,
    netLocalGroupGetMembers := fun _ => Except.error ERROR_ACCESS_DENIED,
    netUserGetInfo := fun _ _ => Except.error ERROR_ACCESS_DENIED }

theorem c7_principal_type_validation_witness :
    (wDomainTag.lookupAccountSidProbe { authority := 5, subAuths := [21] }
      = Except.error ERROR_INSUFFICIENT_BUFFER)
    ∧ (wDomainTag.lookupAccountSidFetch { authority := 5, subAuths := [21] }
      = Except.ok { account := "DOM", domain := "", sidtype := SidNameUse.SidTypeDomain })
    ∧ ((SidNameUse.SidTypeDomain ≠ SidNameUse.SidTypeGroup →
        SidNameUse.SidTypeDomain ≠ SidNameUse.SidTypeAlias →
        SidNameUse.SidTypeDomain ≠ SidNameUse.SidTypeLabel →
        SidNameUse.SidTypeDomain ≠ SidNameUse.SidTypeWellKnownGroup →
        resolve_group wDomainTag { authority := 5, subAuths := [21] } true
          = Except.error ERROR_BAD_ARGUMENTS)
       ∧ (SidNameUse.SidTypeDomain ≠ SidNameUse.SidTypeUser →
          resolve_user wDomainTag { authority := 5, subAuths := [21] }
            = Except.error ERROR_BAD_ARGUMENTS)
       ∧ ERROR_BAD_ARGUMENTS ≠ ERROR_NONE_MAPPED) :=
  ⟨rfl, rfl,
   c7_principal_type_validation wDomainTag { authority := 5, subAuths := [21] }
     { account := "DOM", domain := "", sidtype := SidNameUse.SidTypeDomain } true rfl rfl⟩

/-- C5: when the account name reported for a SID is the sentinel "None"
and the reported domain equals the local machine's NetBIOS name under
the case-insensitive comparison, group resolution rewrites the pair to
(machine, "Users"), and the final display name of the resolved group is
"(machine)\Users". -/
theorem c5_none_alias_normalization (w : SysWorld) (gsid : SidRec) (info : LookupSidInfo)
    (hprobe : w.lookupAccountSidProbe gsid = Except.error ERROR_INSUFFICIENT_BUFFER)
    (hfetch : w.lookupAccountSidFetch gsid = Except.ok info)
    (haccount : info.account = "None")
    (hdomain : icmpEq info.domain w.computerName = true)
    (htype : info.sidtype = SidNameUse.SidTypeGroup ∨ info.sidtype = SidNameUse.SidTypeAlias ∨
             info.sidtype = SidNameUse.SidTypeLabel ∨
             info.sidtype = SidNameUse.SidTypeWellKnownGroup)
    (hcomp : w.computerName.length > 0) :
    normalizeNoneAlias info.account info.domain w.computerName = (w.computerName, "Users")
    ∧ ∃ g, resolve_group w gsid false = Except.ok g
        ∧ g.name = some (w.computerName ++ "\\Users") := by
  have hnn : icmpEq "None" "None" = true := by decide
  have hnorm : normalizeNoneAlias info.account info.domain w.computerName
      = (w.computerName, "Users") := by
    simp [normalizeNoneAlias, haccount, hnn, hdomain]
  refine ⟨hnorm, ?_⟩
  have hlit : ("\\" : String) ++ "Users" = "\\Users" := rfl
  have hcompose : composeName w.computerName "Users" = w.computerName ++ "\\Users" := by
    rw [composeName, if_pos hcomp, String.append_assoc, hlit]
  have hres : resolve_group w gsid false
      = Except.ok { gid := some (convertSidToStringSid gsid),
                    name := some (composeName w.computerName "Users"),
                    passwd := some "x", members := none } := by
    rcases htype with h | h | h | h <;> simp [resolve_group, hprobe, hfetch, h, hnorm]
  exact ⟨_, hres, by simp [hcompose]⟩

/-- Witness world for C5: a domain-joined machine whose local Users
group is natively reported as "host\None". -/
def wUsersAlias : SysWorld :=
  { lookupAccountNameProbe := fun _ => Except.error ERROR_NONE_MAPPED,
    lookupAccountNameFetch := fun _ => Except.error ERROR_NONE_MAPPED,
    lookupAccountSidProbe := fun _ => Except.error ERROR_INSUFFICIENT_BUFFER,
    lookupAccountSidFetch := fun _ =>
      Except.ok { account := "None", domain := "host", sidtype := SidNameUse.SidTypeAlias },
    convertStringSidToSid := fun _ => Except.ok { authority := 5, subAuths := [32, 545] },
    computerName := "HOST",
    netGetDCName := fun _ => Except.error NERR_DCNotFound,
    netGroupGetUsers := fun _ _ => Except.error ERROR_ACCESS_DENIED,
    netLocalGroupGetMembers := fun _ => Except.error ERROR_ACCESS_DENIED,
    netUserGetInfo := fun _ _ => Except.error ERROR_ACCESS_DENIED }

theorem c5_none_alias_normalization_witness :
    (wUsersAlias.lookupAccountSidProbe { authority := 5, subAuths := [32, 545] }
      = Except.error ERROR_INSUFFICIENT_BUFFER)
    ∧ ((wUsersAlias.lookupAccountSidFetch { authority := 5, subAuths := [32, 545] })
      = Except.ok { account := "None", domain := "host", sidtype := SidNameUse.SidTypeAlias })
    ∧ icmpEq "host" "HOST" = true
    ∧ ("HOST".length > 0)
    ∧ (normalizeNoneAlias "None" "host" "HOST" = ("HOST", "Users")
       ∧ ∃ g, resolve_group wUsersAlias { authority := 5, subAuths := [32, 545] } false
           = Except.ok g ∧ g.name = some ("HOST" ++ "\\Users")) :=
  ⟨rfl, rfl, by decide, by decide,
   c5_none_alias_normalization wUsersAlias { authority := 5, subAuths := [32, 545] }
     { account := "None", domain := "host", sidtype := SidNameUse.SidTypeAlias }
     rfl rfl rfl (by decide) (Or.inr (Or.inl rfl)) (by decide)⟩

/-- C6: the primary-group SID of a resolved user is reconstructed from
the profile's relative identifier by exactly one of two disjoint
branches selected against the alias-range threshold: at or above the
threshold the result is a two-sub-authority SID under the built-in
domain ending in the relative id, below it the result keeps the user's
own authority and sub-authority prefix and only the final sub-authority
is replaced by the relative id; the resolved user's gid serializes that
reconstruction. -/
theorem c6_primary_group_reconstruction (w : SysWorld) (usid : SidRec)
    (info : LookupSidInfo) (uinfo : UserInfo4)
    (hsub : usid.subAuths ≠ [])
    (hprobe : w.lookupAccountSidProbe usid = Except.error ERROR_INSUFFICIENT_BUFFER)
    (hfetch : w.lookupAccountSidFetch usid = Except.ok info)
    (htype : info.sidtype = SidNameUse.SidTypeUser)
    (hlocal : icmpEq info.domain w.computerName = true)
    (hui : w.netUserGetInfo none info.account = Except.ok uinfo) :
    (∀ rid, DOMAIN_ALIAS_RID_ADMINS ≤ rid →
        (reconstructPrimaryGroupSid usid rid).authority = SECURITY_NT_AUTHORITY
        ∧ (reconstructPrimaryGroupSid usid rid).subAuths
            = [SECURITY_BUILTIN_DOMAIN_RID, rid])
    ∧ (∀ rid, rid < DOMAIN_ALIAS_RID_ADMINS →
        (reconstructPrimaryGroupSid usid rid).authority = usid.authority
        ∧ (reconstructPrimaryGroupSid usid rid).subAuths.length = usid.subAuths.length
        ∧ (reconstructPrimaryGroupSid usid rid).subAuths.dropLast = usid.subAuths.dropLast
        ∧ (reconstructPrimaryGroupSid usid rid).subAuths.getLast? = some rid)
    ∧ (∀ rid, ¬ (DOMAIN_ALIAS_RID_ADMINS ≤ rid ∧ rid < DOMAIN_ALIAS_RID_ADMINS))
    ∧ DOMAIN_GROUP_RID_ADMINS < DOMAIN_ALIAS_RID_ADMINS
    ∧ ∃ u, resolve_user w usid = Except.ok u
        ∧ u.gid = some (convertSidToStringSid
            (reconstructPrimaryGroupSid usid uinfo.primaryGroupRid)) := by
  have hlen : 0 < usid.subAuths.length := List.length_pos.mpr hsub
  refine ⟨?_, ?_, fun rid h => absurd h.1 (Nat.not_le.mpr h.2), by decide, ?_⟩
  · intro rid h
    simp [reconstructPrimaryGroupSid, h]
  · intro rid h
    have hnot : ¬ DOMAIN_ALIAS_RID_ADMINS ≤ rid := Nat.not_le.mpr h
    refine ⟨by simp [reconstructPrimaryGroupSid, hnot], ?_, ?_, ?_⟩
    · simp only [reconstructPrimaryGroupSid, if_neg hnot, List.length_append,
        List.length_dropLast, List.length_singleton]
      omega
    · simp only [reconstructPrimaryGroupSid, if_neg hnot]
      exact List.dropLast_concat
    · simp only [reconstructPrimaryGroupSid, if_neg hnot]
      exact List.getLast?_concat _
  · have hres : resolve_user w usid = Except.ok
        { uid := some (convertSidToStringSid usid),
          gid := some (convertSidToStringSid
            (reconstructPrimaryGroupSid usid uinfo.primaryGroupRid)),
          name := some (composeName info.domain info.account),
          passwd := some (match uinfo.password with | some p => p | none => "x"),
          gecos := some uinfo.fullName, shell := some uinfo.scriptPath,
          dir := some uinfo.homeDir } := by
      simp [resolve_user, hprobe, hfetch, htype, hlocal, hui]
    exact ⟨_, hres, rfl⟩

/-- Witness world for C6: a local user whose profile reports the Users
group relative id. -/
def wLocalUser : SysWorld :=
  { lookupAccountNameProbe := fun _ => Except.error ERROR_NONE_MAPPED,
    lookupAccountNameFetch := fun _ => Except.error ERROR_NONE_MAPPED,
    lookupAccountSidProbe := fun _ => Except.error ERROR_INSUFFICIENT_BUFFER,
    lookupAccountSidFetch := fun _ =>
      Except.ok { account := "bob", domain := "HOST", sidtype := SidNameUse.SidTypeUser },
    convertStringSidToSid := fun _ => Except.ok { authority := 5, subAuths := [21, 7, 8, 9, 1001] },
    computerName := "HOST",
    netGetDCName := fun _ => Except.error NERR_DCNotFound,
    netGroupGetUsers := fun _ _ => Except.error ERROR_ACCESS_DENIED,
    netLocalGroupGetMembers := fun _ => Except.error ERROR_ACCESS_DENIED,
    netUserGetInfo := fun _ _ =>
      Except.ok { primaryGroupRid := 513, password := none, fullName := "Bob",
                  scriptPath := "", homeDir := "C:/Users/bob" } }

theorem c6_primary_group_reconstruction_witness :
    (SidRec.subAuths { authority := 5, subAuths := [21, 7, 8, 9, 1001] } ≠ [])
    ∧ (wLocalUser.lookupAccountSidProbe { authority := 5, subAuths := [21, 7, 8, 9, 1001] }
        = Except.error ERROR_INSUFFICIENT_BUFFER)
    ∧ ((∀ rid, DOMAIN_ALIAS_RID_ADMINS ≤ rid →
          (reconstructPrimaryGroupSid { authority := 5, subAuths := [21, 7, 8, 9, 1001] } rid).authority
              = SECURITY_NT_AUTHORITY
          ∧ (reconstructPrimaryGroupSid { authority := 5, subAuths := [21, 7, 8, 9, 1001] } rid).subAuths
              = [SECURITY_BUILTIN_DOMAIN_RID, rid])
       ∧ (∀ rid, rid < DOMAIN_ALIAS_RID_ADMINS →
          (reconstructPrimaryGroupSid { authority := 5, subAuths := [21, 7, 8, 9, 1001] } rid).authority
              = SidRec.authority { authority := 5, subAuths := [21, 7, 8, 9, 1001] }
          ∧ (reconstructPrimaryGroupSid { authority := 5, subAuths := [21, 7, 8, 9, 1001] } rid).subAuths.length
              = (SidRec.subAuths { authority := 5, subAuths := [21, 7, 8, 9, 1001] }).length
          ∧ (reconstructPrimaryGroupSid { authority := 5, subAuths := [21, 7, 8, 9, 1001] } rid).subAuths.dropLast
              = (SidRec.subAuths { authority := 5, subAuths := [21, 7, 8, 9, 1001] }).dropLast
          ∧ (reconstructPrimaryGroupSid { authority := 5, subAuths := [21, 7, 8, 9, 1001] } rid).subAuths.getLast?
              = some rid)
       ∧ (∀ rid, ¬ (DOMAIN_ALIAS_RID_ADMINS ≤ rid ∧ rid < DOMAIN_ALIAS_RID_ADMINS))
       ∧ DOMAIN_GROUP_RID_ADMINS < DOMAIN_ALIAS_RID_ADMINS
       ∧ ∃ u, resolve_user wLocalUser { authority := 5, subAuths := [21, 7, 8, 9, 1001] }
             = Except.ok u
           ∧ u.gid = some (convertSidToStringSid
               (reconstructPrimaryGroupSid { authority := 5, subAuths := [21, 7, 8, 9, 1001] }
                 (UserInfo4.primaryGroupRid
                   { primaryGroupRid := 513, password := none, fullName := "Bob",
                     scriptPath := "", homeDir := "C:/Users/bob" })))) :=
  ⟨by decide, rfl,
   c6_primary_group_reconstruction wLocalUser { authority := 5, subAuths := [21, 7, 8, 9, 1001] }
     { account := "bob", domain := "HOST", sidtype := SidNameUse.SidTypeUser }
     { primaryGroupRid := 513, password := none, fullName := "Bob",
       scriptPath := "", homeDir := "C:/Users/bob" }
     (by decide) rfl rfl rfl (by decide) rfl⟩

/-- C2: when the underlying account lookup of any of the four name or
SID lookups reports the none-mapped native error, the call completes
successfully with the explicit absent value: the synchronous form
returns undefined without throwing and the asynchronous form invokes the
callback with a null error and an undefined result, in both the NAN
revision and the legacy after_async handler. -/
theorem c2_notfound_is_success (w : SysWorld) (name gid : String) (sid : SidRec)
    (populate : Bool)
    (hname : w.lookupAccountNameProbe name = Except.error ERROR_NONE_MAPPED)
    (hparse : w.convertStringSidToSid gid = Except.ok sid)
    (hsid : w.lookupAccountSidProbe sid = Except.error ERROR_NONE_MAPPED) :
    getgrnam_sync w name populate = SyncOutcome.retUndefined
    ∧ getgrnam_async w name populate = CallbackCall.successUndefined
    ∧ getpwnam_sync w name = SyncOutcome.retUndefined
    ∧ getpwnam_async w name = CallbackCall.successUndefined
    ∧ getgrgid_sync w gid populate = SyncOutcome.retUndefined
    ∧ getgrgid_async w gid populate = CallbackCall.successUndefined
    ∧ getpwuid_sync w gid = SyncOutcome.retUndefined
    ∧ getpwuid_async w gid = CallbackCall.successUndefined
    ∧ (∀ op u g, after_async ERROR_NONE_MAPPED op u g = CallbackCall.successUndefined) := by
  have hgn : getgrnam_impl w name populate = Except.error ERROR_NONE_MAPPED := by
    simp [getgrnam_impl, resolve_name, hname, none_mapped_ne_insufficient]
  have hpn : getpwnam_impl w name = Except.error ERROR_NONE_MAPPED := by
    simp [getpwnam_impl, resolve_name, hname, none_mapped_ne_insufficient]
  have hgg : getgrgid_impl w gid populate = Except.error ERROR_NONE_MAPPED := by
    simp [getgrgid_impl, hparse, resolve_group, hsid, none_mapped_ne_insufficient]
  have hpu : getpwuid_impl w gid = Except.error ERROR_NONE_MAPPED := by
    simp [getpwuid_impl, hparse, resolve_user, hsid, none_mapped_ne_insufficient]
  refine ⟨?_, ?_, ?_, ?_, ?_, ?_, ?_, ?_, fun op u g => by simp [after_async]⟩ <;>
    simp [getgrnam_sync, getgrnam_async, getpwnam_sync, getpwnam_async,
      getgrgid_sync, getgrgid_async, getpwuid_sync, getpwuid_async,
      groupSyncComplete, groupAsyncComplete, userSyncComplete, userAsyncComplete,
      hgn, hpn, hgg, hpu]

/-- Witness world for C2: every lookup reports the none-mapped error,
while SID strings still parse. -/
def wNotFound : SysWorld :=
  { lookupAccountNameProbe := fun _ => Except.error ERROR_NONE_MAPPED,
    lookupAccountNameFetch := fun _ => Except.error ERROR_NONE_MAPPED,
    lookupAccountSidProbe := fun _ => Except.error ERROR_NONE_MAPPED,
    lookupAccountSidFetch := fun _ => Except.error ERROR_NONE_MAPPED,
    convertStringSidToSid := fun _ => Except.ok { authority := 5, subAuths := [32, 599] },
    computerName := "HOST",
    netGetDCName := fun _ => Except.error NERR_DCNotFound,
    netGroupGetUsers := fun _ _ => Except.error ERROR_ACCESS_DENIED,
    netLocalGroupGetMembers := fun _ => Except.error ERROR_ACCESS_DENIED,
    netUserGetInfo := fun _ _ => Except.error ERROR_ACCESS_DENIED }

theorem c2_notfound_is_success_witness :
    (wNotFound.lookupAccountNameProbe "nosuch" = Except.error ERROR_NONE_MAPPED)
    ∧ (wNotFound.convertStringSidToSid "S-1-5-32-599"
        = Except.ok { authority := 5, subAuths := [32, 599] })
    ∧ (wNotFound.lookupAccountSidProbe { authority := 5, subAuths := [32, 599] }
        = Except.error ERROR_NONE_MAPPED)
    ∧ (getgrnam_sync wNotFound "nosuch" true = SyncOutcome.retUndefined
       ∧ getgrnam_async wNotFound "nosuch" true = CallbackCall.successUndefined
       ∧ getpwnam_sync wNotFound "nosuch" = SyncOutcome.retUndefined
       ∧ getpwnam_async wNotFound "nosuch" = CallbackCall.successUndefined
       ∧ getgrgid_sync wNotFound "S-1-5-32-599" true = SyncOutcome.retUndefined
       ∧ getgrgid_async wNotFound "S-1-5-32-599" true = CallbackCall.successUndefined
       ∧ getpwuid_sync wNotFound "S-1-5-32-599" = SyncOutcome.retUndefined
       ∧ getpwuid_async wNotFound "S-1-5-32-599" = CallbackCall.successUndefined
       ∧ (∀ op u g, after_async ERROR_NONE_MAPPED op u g = CallbackCall.successUndefined)) :=
  ⟨rfl, rfl, rfl,
   c2_notfound_is_success wNotFound "nosuch" "S-1-5-32-599"
     { authority := 5, subAuths := [32, 599] } true rfl rfl rfl⟩

/-- C3: an access-denied outcome from the membership-enumeration call,
whether the domain-scoped or the local one, is not an error: the group
resolution completes successfully and the converted group record carries
an empty members list. -/
theorem c3_access_denied_empty_members (w : SysWorld) (gsid : SidRec)
    (info : LookupSidInfo)
    (hprobe : w.lookupAccountSidProbe gsid = Except.error ERROR_INSUFFICIENT_BUFFER)
    (hfetch : w.lookupAccountSidFetch gsid = Except.ok info)
    (htype : info.sidtype = SidNameUse.SidTypeGroup ∨ info.sidtype = SidNameUse.SidTypeAlias)
    (hdc : ∀ d, w.netGetDCName d = Except.error NERR_DCNotFound
           ∨ ∃ s, w.netGetDCName d = Except.ok s)
    (hden1 : ∀ s a, w.netGroupGetUsers s a = Except.error ERROR_ACCESS_DENIED)
    (hden2 : ∀ a, w.netLocalGroupGetMembers a = Except.error ERROR_ACCESS_DENIED) :
    ∃ g, resolve_group w gsid true = Except.ok g ∧ (convert_group g).members = [] := by
  have hres : resolve_group w gsid true
      = Except.ok { gid := some (convertSidToStringSid gsid),
                    name := none, passwd := none, members := none } := by
    rcases htype with h | h <;>
    · simp only [resolve_group, hprobe, hfetch, h]
      set na := normalizeNoneAlias info.account info.domain w.computerName with hna
      by_cases hcond : 0 < na.1.length ∧ icmpEq na.1 "BUILTIN" = false
          ∧ icmpEq na.1 w.computerName = false
      · rcases hdc na.1 with hdcn | ⟨s, hdcs⟩
        · simp [hcond, hdcn, hden2]
        · simp [hcond, hdcs, hden1]
      · simp [hcond, hden2]
  exact ⟨_, hres, rfl⟩

/-- Witness world for C3: a local alias whose membership enumeration is
denied to the caller. -/
def wDenied : SysWorld :=
  { lookupAccountNameProbe := fun _ => Except.error ERROR_NONE_MAPPED,
    lookupAccountNameFetch := fun _ => Except.error ERROR_NONE_MAPPED,
    lookupAccountSidProbe := fun _ => Except.error ERROR_INSUFFICIENT_BUFFER,
    lookupAccountSidFetch := fun _ =>
      Except.ok { account := "Admins", domain := "", sidtype := SidNameUse.SidTypeAlias },
    convertStringSidToSid := fun _ => Except.ok { authority := 5, subAuths := [32, 544] },
    computerName := "HOST",
    netGetDCName := fun _ => Except.error NERR_DCNotFound,
    netGroupGetUsers := fun _ _ => Except.error ERROR_ACCESS_DENIED,
    netLocalGroupGetMembers := fun _ => Except.error ERROR_ACCESS_DENIED,
    netUserGetInfo := fun _ _ => Except.error ERROR_ACCESS_DENIED }

theorem c3_access_denied_empty_members_witness :
    (wDenied.lookupAccountSidProbe { authority := 5, subAuths := [32, 544] }
      = Except.error ERROR_INSUFFICIENT_BUFFER)
    ∧ (wDenied.lookupAccountSidFetch { authority := 5, subAuths := [32, 544] }
      = Except.ok { account := "Admins", domain := "", sidtype := SidNameUse.SidTypeAlias })
    ∧ (∃ g, resolve_group wDenied { authority := 5, subAuths := [32, 544] } true
        = Except.ok g ∧ (convert_group g).members = []) :=
  ⟨rfl, rfl,
   c3_access_denied_empty_members wDenied { authority := 5, subAuths := [32, 544] }
     { account := "Admins", domain := "", sidtype := SidNameUse.SidTypeAlias }
     rfl rfl (Or.inr rfl) (fun _ => Or.inl rfl) (fun _ _ => rfl) (fun _ => rfl)⟩

/-- C4 counterexample: at a concrete world where the local membership
enumeration is denied, the group resolution completes successfully, yet
the returned record's passwd field is absent rather than the claimed
"x" placeholder, because the access-denied early return precedes the
passwd assignment. -/
theorem c4_passwd_counterexample :
    resolve_group wDenied { authority := 5, subAuths := [32, 544] } true
      = Except.ok { gid := some "S-1-5-32-544", name := none, passwd := none, members := none }
    ∧ (convert_group { gid := some "S-1-5-32-544", name := none,
                       passwd := none, members := none }).passwd = none := by
  constructor
  · rfl
  · rfl

/-- C4, amended: for every group resolution that completes successfully
and in which no membership-enumeration call reported access denied (in
particular when enumeration was skipped), the passwd field is present
and equals "x"; on the access-denied early return the resolution still
succeeds but passwd is absent (see the counterexample). -/
theorem c4_passwd_placeholder (w : SysWorld) (gsid : SidRec) (populate : Bool)
    (g : Group_t)
    (hnd1 : ∀ s a, w.netGroupGetUsers s a ≠ Except.error ERROR_ACCESS_DENIED)
    (hnd2 : ∀ a, w.netLocalGroupGetMembers a ≠ Except.error ERROR_ACCESS_DENIED)
    (hok : resolve_group w gsid populate = Except.ok g) :
    (convert_group g).passwd = some "x" := by
  simp only [resolve_group] at hok
  repeat' split at hok
  all_goals try exact Except.noConfusion hok
  all_goals rw [Except.ok.injEq] at hok
  all_goals subst hok
  all_goals try rfl
  all_goals simp_all

/-- Witness world for the amended C4: a local alias whose enumeration
succeeds with one member. -/
def wMembers : SysWorld :=
  { lookupAccountNameProbe := fun _ => Except.error ERROR_NONE_MAPPED,
    lookupAccountNameFetch := fun _ => Except.error ERROR_NONE_MAPPED,
    lookupAccountSidProbe := fun _ => Except.error ERROR_INSUFFICIENT_BUFFER,
    lookupAccountSidFetch := fun _ =>
      Except.ok { account := "Users", domain := "", sidtype := SidNameUse.SidTypeAlias },
    convertStringSidToSid := fun _ => Except.ok { authority := 5, subAuths := [32, 545] },
    computerName := "HOST",
    netGetDCName := fun _ => Except.error NERR_DCNotFound,
    netGroupGetUsers := fun _ _ => Except.ok ["HOST\\bob"],
    netLocalGroupGetMembers := fun _ => Except.ok ["HOST\\bob"],
    netUserGetInfo := fun _ _ => Except.error ERROR_ACCESS_DENIED }

theorem c4_passwd_placeholder_witness :
    (∀ s a, wMembers.netGroupGetUsers s a ≠ Except.error ERROR_ACCESS_DENIED)
    ∧ (∀ a, wMembers.netLocalGroupGetMembers a ≠ Except.error ERROR_ACCESS_DENIED)
    ∧ (resolve_group wMembers { authority := 5, subAuths := [32, 545] } true
        = Except.ok { gid := some "S-1-5-32-545", name := some "Users",
                      passwd := some "x", members := some ["HOST\\bob"] })
    ∧ (convert_group { gid := some "S-1-5-32-545", name := some "Users",
                       passwd := some "x", members := some ["HOST\\bob"] }).passwd = some "x" :=
  ⟨fun _ _ h => Except.noConfusion h, fun _ h => Except.noConfusion h, rfl,
   c4_passwd_placeholder wMembers { authority := 5, subAuths := [32, 545] } true
     { gid := some "S-1-5-32-545", name := some "Users",
       passwd := some "x", members := some ["HOST\\bob"] }
     (fun _ _ h => Except.noConfusion h) (fun _ h => Except.noConfusion h) rfl⟩

/-- C8: a path-based ownership read on a symbolic link whose stored
target is a relative path resolves the target by joining it to the
directory containing the link, not the caller's working directory, and
continues the read on that resolved path; an absolute target is used
unchanged. -/
theorem c8_symlink_resolution (fs : JsFs) (p t : String)
    (hn : fs.node p = some (FsNode.symlink t))
    (hr : fs.readlink p = some t) :
    (isAbsolutePath t = false →
      statSyncExt fs p = lstatSyncExt fs (pathJoin (pathDirname p) t))
    ∧ (isAbsolutePath t = true → statSyncExt fs p = lstatSyncExt fs t) := by
  constructor
  · intro habs
    simp [statSyncExt, hn, hr, resolveLink, habs]
  · intro habs
    simp [statSyncExt, hn, hr, resolveLink, habs]

/-- Witness filesystem for C8: a link stored with the relative target
"t.txt" inside the directory "a/b", plus the file it points at. -/
def c8fs : JsFs :=
  { node := fun p =>
      if p = "a/b/link" then some (FsNode.symlink "t.txt")
      else if p = "a/b/t.txt" then some FsNode.plain
      else none,
    readlink := fun p => if p = "a/b/link" then some "t.txt" else none,
    own := fun p => if p = "a/b/t.txt" then some ("S-1-5-21-7-1001", "S-1-5-32-545") else none }

theorem c8_symlink_resolution_witness :
    (c8fs.node "a/b/link" = some (FsNode.symlink "t.txt"))
    ∧ (c8fs.readlink "a/b/link" = some "t.txt")
    ∧ ((isAbsolutePath "t.txt" = false →
        statSyncExt c8fs "a/b/link"
          = lstatSyncExt c8fs (pathJoin (pathDirname "a/b/link") "t.txt"))
       ∧ (isAbsolutePath "t.txt" = true →
        statSyncExt c8fs "a/b/link" = lstatSyncExt c8fs "t.txt"))
    ∧ isAbsolutePath "t.txt" = false
    ∧ pathJoin (pathDirname "a/b/link") "t.txt" = "a/b/t.txt" :=
  ⟨by simp [c8fs], by simp [c8fs],
   c8_symlink_resolution c8fs "a/b/link" "t.txt" (by simp [c8fs]) (by simp [c8fs]),
   by decide, by decide⟩

/-- A world whose process token holds only the backup and restore
privileges, as for a member of Backup Operators: enabling the four
take-ownership privileges enables that held subset and then reports
not-all-assigned. -/
def wPartialToken : FsWorld :=
  { parseSid := fun _ => true,
    openToken := true,
    adjustCallOk := true,
    heldPrivs := { takeOwnership := false, security := false, backup := true, restore := true },
    setInfo := true,
    closeToken := true }

/-- A world whose token holds all four privileges but whose
security-descriptor update fails. -/
def wSetInfoFails : FsWorld :=
  { parseSid := fun _ => true,
    openToken := true,
    adjustCallOk := true,
    heldPrivs := allPrivileges,
    setInfo := false,
    closeToken := true }

/-- An initial process/file state with every privilege disabled. -/
def s0Fs : SecState :=
  { privs := noPrivileges, owner := "S-1-5-18", group := "S-1-5-32-544", setCalls := 0 }

/-- C9: the spec and the source's own comments promise that the
take-ownership privileges are disabled again on every exit path of an
ownership write, the enable failure included, restoring the privilege
state that existed before the call.  The code breaks that promise on the
not-all-assigned path: when the token holds only a subset of the four
privileges, AdjustTokenPrivileges enables that subset and reports
ERROR_NOT_ALL_ASSIGNED, SetPrivileges returns FALSE, Enable fails with
the enabled flag still false, and neither the explicit Disable nor the
RAII destructor ever disables the subset.  This theorem evaluates the
leak at a concrete input and contrasts it with a failing
security-descriptor update on a fully privileged token, where the
promised restoration does happen. -/
theorem c9_privilege_leak :
    (chown_impl wPartialToken "S-1-5-21-7-1001" "" s0Fs).1 = Except.error FsErr.adjustEnable
    ∧ (chown_impl wPartialToken "S-1-5-21-7-1001" "" s0Fs).2.privs ≠ s0Fs.privs
    ∧ (chown_impl wPartialToken "S-1-5-21-7-1001" "" s0Fs).2.privs.backup = true
    ∧ (chown_impl wPartialToken "S-1-5-21-7-1001" "" s0Fs).2.privs.restore = true
    ∧ (fchown_impl wPartialToken 3 "S-1-5-21-7-1001" "" s0Fs).2.privs ≠ s0Fs.privs
    ∧ (chown_impl wSetInfoFails "S-1-5-21-7-1001" "" s0Fs).1 = Except.error FsErr.setInfo
    ∧ (chown_impl wSetInfoFails "S-1-5-21-7-1001" "" s0Fs).2.privs = s0Fs.privs := by
  refine ⟨rfl, by decide, rfl, rfl, by decide, rfl, rfl⟩

/-- An oracle world for the ownership writes in which every native call
succeeds and the token holds all four privileges. -/
def wFsOk : FsWorld :=
  { parseSid := fun _ => true,
    openToken := true,
    adjustCallOk := true,
    heldPrivs := allPrivileges,
    setInfo := true,
    closeToken := true }

/-- C10: passing empty strings for both the owner and the group passes
the JavaScript argument validation, which rejects only the case where
both are undefined; the native write then performs no security-
descriptor update at all and returns success, leaving the object's
owner, group and update count unchanged (only the privilege round trip
happens). -/
theorem c10_empty_ids_noop (w : FsWorld) (p : String) (fd : Int) (s0 : SecState)
    (htoken : w.openToken = true)
    (hadj : w.adjustCallOk = true)
    (hheld : w.heldPrivs = allPrivileges)
    (hclose : w.closeToken = true) :
    chown_entry [JsVal.str p, JsVal.str "", JsVal.str ""] = EntryOutcome.syncRun
    ∧ chown_entry [JsVal.str p, JsVal.undef, JsVal.undef]
        = EntryOutcome.typeError "either uid or gid must be defined"
    ∧ fchown_entry [JsVal.int fd, JsVal.str "", JsVal.str ""] = EntryOutcome.syncRun
    ∧ fchown_entry [JsVal.int fd, JsVal.undef, JsVal.undef]
        = EntryOutcome.typeError "either uid or gid must be defined"
    ∧ (chown_impl w "" "" s0).1 = Except.ok ()
    ∧ (chown_impl w "" "" s0).2.owner = s0.owner
    ∧ (chown_impl w "" "" s0).2.group = s0.group
    ∧ (chown_impl w "" "" s0).2.setCalls = s0.setCalls
    ∧ (fchown_impl w fd "" "" s0).1 = Except.ok ()
    ∧ (fchown_impl w fd "" "" s0).2.owner = s0.owner
    ∧ (fchown_impl w fd "" "" s0).2.group = s0.group
    ∧ (fchown_impl w fd "" "" s0).2.setCalls = s0.setCalls := by
  refine ⟨by simp [chown_entry, argAt, JsVal.isStr, JsVal.isUndef, JsVal.isFunc],
          by simp [chown_entry, argAt, JsVal.isStr, JsVal.isUndef, JsVal.isFunc],
          by simp [fchown_entry, argAt, JsVal.isStr, JsVal.isUndef, JsVal.isFunc,
            JsVal.isInt32],
          by simp [fchown_entry, argAt, JsVal.isStr, JsVal.isUndef, JsVal.isFunc,
            JsVal.isInt32],
          ?_, ?_, ?_, ?_, ?_, ?_, ?_, ?_⟩ <;>
    simp [chown_impl, chown_impl_body, fchown_impl, fchown_impl_body, setInfoStep,
      setPrivilegesStep, disableStep, htoken, hadj, hheld, hclose]

theorem c10_empty_ids_noop_witness :
    (wFsOk.openToken = true)
    ∧ (wFsOk.adjustCallOk = true)
    ∧ (wFsOk.heldPrivs = allPrivileges)
    ∧ (wFsOk.closeToken = true)
    ∧ (chown_entry [JsVal.str "f.txt", JsVal.str "", JsVal.str ""] = EntryOutcome.syncRun
       ∧ chown_entry [JsVal.str "f.txt", JsVal.undef, JsVal.undef]
           = EntryOutcome.typeError "either uid or gid must be defined"
       ∧ fchown_entry [JsVal.int 3, JsVal.str "", JsVal.str ""] = EntryOutcome.syncRun
       ∧ fchown_entry [JsVal.int 3, JsVal.undef, JsVal.undef]
           = EntryOutcome.typeError "either uid or gid must be defined"
       ∧ (chown_impl wFsOk "" "" s0Fs).1 = Except.ok ()
       ∧ (chown_impl wFsOk "" "" s0Fs).2.owner = s0Fs.owner
       ∧ (chown_impl wFsOk "" "" s0Fs).2.group = s0Fs.group
       ∧ (chown_impl wFsOk "" "" s0Fs).2.setCalls = s0Fs.setCalls
       ∧ (fchown_impl wFsOk 3 "" "" s0Fs).1 = Except.ok ()
       ∧ (fchown_impl wFsOk 3 "" "" s0Fs).2.owner = s0Fs.owner
       ∧ (fchown_impl wFsOk 3 "" "" s0Fs).2.group = s0Fs.group
       ∧ (fchown_impl wFsOk 3 "" "" s0Fs).2.setCalls = s0Fs.setCalls) :=
  ⟨rfl, rfl, rfl, rfl, c10_empty_ids_noop wFsOk "f.txt" 3 s0Fs rfl rfl rfl rfl⟩

end PosixExt
